import Mathlib

/-!
Verification of the color proxy (github.com/asam264/color) against its
natural-language specification.

Shallow embedding notes:
* Go `time.Time` / `time.Duration` are modelled as `Int` (nanoseconds since
  the epoch); `now.After(t)` is `t < now` and `now.Add(ttl)` is `now + ttl`.
* The redis client is modelled as a functional key/value map.  Every key the
  repository ever writes has the constant shape `"colorproxy:route:" ++ color`
  and the `Keys "colorproxy:route:*"` enumeration matches exactly those keys,
  so entries are indexed by the color directly (the constant tag makes the
  translation a bijection on keys).  The serialized value is the `Route`
  itself: `json.Marshal`/`json.Unmarshal` on this flat struct of strings and
  a timestamp always succeed and round-trip.  Server-side behaviour of the
  external store (the spec treats the storage engine as an opaque dependency,
  out of scope) is not modelled; a fault-injection set `failDel` records the
  keys whose DEL command fails with a store error, which is what the sweep
  claims are about.
* Go pointer mutation of the `*Route` argument of `Register` is modelled by
  returning the mutated `Route` alongside the new store state.
* In the dispatch middleware the strategy is an interface value; it is
  modelled as a function argument, and the concrete `SimpleStrategy.Select`
  body is embedded separately.  The transport call is abstracted by a
  function saying for which targets `transport.Proxy` reports an error.
-/

/-- Route from internal/backend/backend.go: a lease binding a color tag to an
address, with owner/token metadata and an absolute expiry time. -/
structure Route where
  color : String
  address : String
  owner : String
  token : String
  expiresAt : Int
deriving DecidableEq, Repr

/-- Errors surfaced by the backend layer: the sentinel "route not found"
error, the "address or token mismatch" error, and any error coming from the
store client. -/
inductive BErr where
  | notFound
  | mismatch
  | storeErr
deriving DecidableEq, Repr

/-- State of the redis key/value store as seen through the client: the
entries (keyed by color, see the header comment) and the fault-injection set
of keys whose DEL command fails with a store error. -/
structure RedisState where
  entries : List (String × Route)
  failDel : List String
deriving DecidableEq, Repr

/-- Client GET: the value stored under the key, if any. -/
def redisGet (s : RedisState) (color : String) : Option Route :=
  (s.entries.find? (fun e => e.1 == color)).map (·.2)

/-- Client SET: overwrite whatever was stored under the key. -/
def redisSet (s : RedisState) (color : String) (r : Route) : RedisState :=
  { s with entries := (color, r) :: s.entries.filter (fun e => e.1 != color) }

/-- Client DEL: remove the key; removing an absent key is a no-op. -/
def redisDel (s : RedisState) (color : String) : RedisState :=
  { s with entries := s.entries.filter (fun e => e.1 != color) }

/-- RedisBackend.Register (internal/backend/redis.go): overwrites the
route's ExpiresAt with now + ttl (mutating the caller's struct, returned
here as the first component) and unconditionally stores it under its color
key. -/
def backendRegister (s : RedisState) (now : Int) (route : Route) (ttl : Int) :
    Route × RedisState :=
  let stored := { route with expiresAt := now + ttl }
  (stored, redisSet s route.color stored)

/-- RedisBackend.Get (internal/backend/redis.go): returns the stored route
verbatim, or the "route not found" error when the key is absent; it never
consults a clock. -/
def backendGet (s : RedisState) (color : String) : Except BErr Route :=
  match redisGet s color with
  | some r => Except.ok r
  | none => Except.error BErr.notFound

/-- RedisBackend.Heartbeat (internal/backend/redis.go): fetches the current
route, propagates the fetch error, fails with the mismatch error when the
presented address or token differs from the stored values (performing no
write), and otherwise re-registers the route with a refreshed expiry. -/
def backendHeartbeat (s : RedisState) (now : Int)
    (color address token : String) (ttl : Int) :
    Except BErr Unit × RedisState :=
  match backendGet s color with
  | Except.error e => (Except.error e, s)
  | Except.ok route =>
    if route.address ≠ address ∨ route.token ≠ token then
      (Except.error BErr.mismatch, s)
    else
      let route' := { route with expiresAt := now + ttl }
      (Except.ok (), (backendRegister s now route' ttl).2)

/-- RedisBackend.List (internal/backend/redis.go): enumerates all stored
routes (the model stores deserialized values, so the skip-on-bad-row branch
is never taken). -/
def backendList (s : RedisState) : List Route :=
  s.entries.map (·.2)

/-- RedisBackend.Delete (internal/backend/redis.go): unconditional removal;
fails with a store error exactly for the fault-injected keys. -/
def backendDelete (s : RedisState) (color : String) :
    Except BErr Unit × RedisState :=
  if color ∈ s.failDel then (Except.error BErr.storeErr, s)
  else (Except.ok (), redisDel s color)

/-- Body of the sweep loop in RedisBackend.DeleteExpired: delete the route
when its expiry has passed, ignoring the deletion's result. -/
def sweepStep (now : Int) (st : RedisState) (r : Route) : RedisState :=
  if r.expiresAt < now then (backendDelete st r.color).2 else st

/-- RedisBackend.DeleteExpired (internal/backend/redis.go): lists all routes,
deletes every route whose expiry has passed relative to the current clock,
swallowing per-route deletion failures, and reports success. -/
def backendDeleteExpired (s : RedisState) (now : Int) :
    Except BErr Unit × RedisState :=
  (Except.ok (), (backendList s).foldl (sweepStep now) s)

/-- Well-formedness of a store state reachable through the backend API:
every entry is stored under its own color key. -/
def WFState (s : RedisState) : Prop :=
  ∀ e ∈ s.entries, e.1 = e.2.color

/-- SimpleStrategy.Select (internal/strategy/simple.go), as a function of
the backend Get result: propagates every backend error verbatim and
otherwise returns the route's address. -/
def simpleSelect (getResult : Except BErr Route) : Except BErr String :=
  match getResult with
  | Except.error e => Except.error e
  | Except.ok route => Except.ok route.address

/-- An inbound HTTP request, restricted to the parts the proxy reads or
rewrites. -/
structure HTTPRequest where
  path : String
  hostHeader : String
  urlScheme : String
  urlHost : String
  headers : List (String × String)
  body : String
deriving DecidableEq, Repr

/-- gin's GetHeader: the header's value, or the empty string when absent. -/
def getHeader (req : HTTPRequest) (key : String) : String :=
  match req.headers.find? (fun h => h.1 == key) with
  | some h => h.2
  | none => ""

/-- Outcome of the dispatch middleware for one inbound request: hand the
request to the normal handler chain, forward it to a resolved target, or
answer 502 after a failed forward (the chain is not invoked in the last two
cases). -/
inductive DispatchOutcome where
  | next (req : HTTPRequest)
  | forwarded (target : String)
  | badGateway (target : String)
deriving DecidableEq, Repr

/-- Proxy.ginProxyMiddleware (color.go): read the color header; absent means
passthrough; any strategy error means passthrough; a resolved target is
forwarded via the transport, a transport error yielding a 502 response, and
in either case the chain is aborted. -/
def ginProxyMiddleware (strat : String → Except BErr String)
    (proxyFails : String → Bool) (req : HTTPRequest) : DispatchOutcome :=
  let color := getHeader req "color"
  if color = "" then DispatchOutcome.next req
  else
    match strat color with
    | Except.error _ => DispatchOutcome.next req
    | Except.ok target =>
      if proxyFails target then DispatchOutcome.badGateway target
      else DispatchOutcome.forwarded target

/-- singleJoiningSlash (internal/transport/http.go): join two paths,
collapsing a duplicate slash at the join point and inserting one when both
sides lack it. -/
def singleJoiningSlash (a b : String) : String :=
  let aslash := !a.isEmpty && a.back == '/'
  let bslash := !b.isEmpty && b.front == '/'
  if aslash && bslash then a ++ b.drop 1
  else if !aslash && !bslash then a ++ "/" ++ b
  else a ++ b

/-- Modelled from the spec's words for the refinement check of the path
join: the target's base path joined with the inbound request path, with a
duplicate slash at the join point collapsed exactly once, and a slash
inserted when neither side supplies one. -/
def specJoinOnce (basePath inboundPath : String) : String :=
  let baseEnds := !basePath.isEmpty && basePath.back == '/'
  let inStarts := !inboundPath.isEmpty && inboundPath.front == '/'
  if baseEnds && inStarts then basePath ++ inboundPath.drop 1
  else if !baseEnds && !inStarts then basePath ++ "/" ++ inboundPath
  else basePath ++ inboundPath

/-- A parsed target URL (the result of url.Parse on the resolved address). -/
structure URLModel where
  scheme : String
  host : String
  path : String
deriving DecidableEq, Repr

/-- The Director installed by HTTPTransport.Proxy
(internal/transport/http.go): the stdlib single-host director points the
outbound URL at the target, then the custom director sets the path to the
target's base path joined with the original inbound path and sets the Host
to the target's host; headers and body are left untouched. -/
def httpDirector (target : URLModel) (req : HTTPRequest) : HTTPRequest :=
  { req with
    urlScheme := target.scheme
    urlHost := target.host
    path := singleJoiningSlash target.path req.path
    hostHeader := target.host }

/-- State of HTTPTransport (internal/transport/http.go) relevant to its
lifecycle: whether Close has told the shared stdlib transport to drop its
idle connections.  No field of the transport gates Proxy after Close. -/
structure HTTPTransportState where
  idleConnsClosed : Bool
deriving DecidableEq, Repr

/-- HTTPTransport.Proxy (internal/transport/http.go) on an already-parsed
target: builds the outbound request through the director and reports
success (a backend failure is written to the sink by the ErrorHandler, not
returned).  It never consults the transport's lifecycle state. -/
def httpTransportProxy (st : HTTPTransportState) (target : URLModel)
    (req : HTTPRequest) : Except String HTTPRequest × HTTPTransportState :=
  (Except.ok (httpDirector target req), st)

/-- HTTPTransport.Close (internal/transport/http.go): closes the shared
transport's idle connections and reports success. -/
def httpTransportClose (st : HTTPTransportState) :
    Except String Unit × HTTPTransportState :=
  (Except.ok (), { st with idleConnsClosed := true })

/-- Errors of GRPCTransport.getOrCreateConn (internal/transport/grpc.go). -/
inductive GrpcConnErr where
  | emptyTarget
  | dialFailed
deriving DecidableEq, Repr

/-- Errors of GRPCTransport.Proxy (internal/transport/grpc.go): a wrapped
connection error or a failed RPC invocation. -/
inductive GrpcProxyErr where
  | getConnFailed (e : GrpcConnErr)
  | rpcFailed
deriving DecidableEq, Repr

/-- State of GRPCTransport (internal/transport/grpc.go): the connection
pool keyed by normalized target address with its last-use time, whether the
idle-eviction sweep has been stopped, and the targets whose pooled
connections have been closed. -/
structure GRPCState where
  pool : List (String × Int)
  sweepStopped : Bool
  closedTargets : List String
deriving DecidableEq, Repr

/-- GRPCTransport.getOrCreateConn (internal/transport/grpc.go) on an
already-normalized address: an empty address is an error; a pooled
connection is reused with its last-use time refreshed; otherwise a new
connection is dialled (dialOk says whether the dial succeeds) and pooled.
The closed/stopped state of the transport is never consulted. -/
def getOrCreateConn (st : GRPCState) (now : Int) (target : String)
    (dialOk : Bool) : Except GrpcConnErr Unit × GRPCState :=
  if target = "" then (Except.error GrpcConnErr.emptyTarget, st)
  else
    match st.pool.find? (fun e => e.1 == target) with
    | some _ =>
      (Except.ok (),
        { st with pool :=
            st.pool.map (fun e => if e.1 == target then (e.1, now) else e) })
    | none =>
      if dialOk then (Except.ok (), { st with pool := (target, now) :: st.pool })
      else (Except.error GrpcConnErr.dialFailed, st)

/-- GRPCTransport.Proxy (internal/transport/grpc.go): obtains a pooled or
fresh connection (wrapping a failure) and invokes the RPC on it (invokeOk
says whether the invocation succeeds). -/
def grpcProxy (st : GRPCState) (now : Int) (target : String)
    (dialOk invokeOk : Bool) : Except GrpcProxyErr Unit × GRPCState :=
  match getOrCreateConn st now target dialOk with
  | (Except.error e, st') => (Except.error (GrpcProxyErr.getConnFailed e), st')
  | (Except.ok _, st') =>
    if invokeOk then (Except.ok (), st')
    else (Except.error GrpcProxyErr.rpcFailed, st')

/-- GRPCTransport.Close (internal/transport/grpc.go): stops the idle
sweep, closes every pooled connection, empties the pool, and reports
success. -/
def grpcClose (st : GRPCState) : Except GrpcProxyErr Unit × GRPCState :=
  (Except.ok (),
    { pool := []
      sweepStopped := true
      closedTargets := st.closedTargets ++ st.pool.map (·.1) })

/-- The observable actions of Proxy.Shutdown (color.go), in execution
order. -/
inductive ShutdownStep where
  | cancelTasks
  | deleteSelf
  | closeTransport
  | closeBackend
deriving DecidableEq, Repr

/-- What Proxy.Shutdown returns to its caller. -/
inductive ShutdownResult where
  | ok
  | timedOut
  | backendCloseFailed
deriving DecidableEq, Repr

/-- Environment of one Proxy.Shutdown run: the configuration fields it
reads and the outcomes of the calls it makes (self-deletion failure and
transport-close failure are logged only; waitTimesOut says whether the
caller's deadline fires before the background tasks finish;
transportHasCloser is the type assertion on the transport, true for both
shipped transports). -/
structure ShutdownEnv where
  autoRegister : Bool
  localColor : String
  deleteSelfFails : Bool
  waitTimesOut : Bool
  transportHasCloser : Bool
  transportCloseFails : Bool
  backendCloseFails : Bool
deriving DecidableEq, Repr

/-- Proxy.Shutdown (color.go): cancel the background tasks, best-effort
delete the self-registration when configured, then wait for the tasks; on
deadline exhaustion return the context error immediately; otherwise close
the transport (failure logged), close the backend, and return the
backend-close error if any. -/
def proxyShutdown (e : ShutdownEnv) : List ShutdownStep × ShutdownResult :=
  let pre := [ShutdownStep.cancelTasks] ++
    (if e.autoRegister ∧ e.localColor ≠ "" then [ShutdownStep.deleteSelf] else [])
  if e.waitTimesOut then (pre, ShutdownResult.timedOut)
  else
    (pre ++ (if e.transportHasCloser then [ShutdownStep.closeTransport] else []) ++
      [ShutdownStep.closeBackend],
     if e.backendCloseFails then ShutdownResult.backendCloseFailed
     else ShutdownResult.ok)

/-- Helper for the sweep: one sweep step never adds entries. -/
theorem sweepStep_mem {now : Int} {st : RedisState} {r0 : Route}
    {e : String × Route} (h : e ∈ (sweepStep now st r0).entries) :
    e ∈ st.entries := by
  unfold sweepStep at h
  by_cases h1 : r0.expiresAt < now
  · rw [if_pos h1] at h
    unfold backendDelete at h
    by_cases h2 : r0.color ∈ st.failDel
    · rw [if_pos h2] at h
      exact h
    · rw [if_neg h2] at h
      unfold redisDel at h
      exact List.mem_of_mem_filter h
  · rw [if_neg h1] at h
    exact h

/-- Helper for the sweep: one sweep step never touches the fault set. -/
theorem sweepStep_failDel (now : Int) (st : RedisState) (r0 : Route) :
    (sweepStep now st r0).failDel = st.failDel := by
  unfold sweepStep
  by_cases h1 : r0.expiresAt < now
  · rw [if_pos h1]
    unfold backendDelete
    by_cases h2 : r0.color ∈ st.failDel
    · rw [if_pos h2]
    · rw [if_neg h2]
      rfl
  · rw [if_neg h1]

/-- Helper for the sweep: the whole sweep loop never adds entries. -/
theorem sweepFold_mem {now : Int} :
    ∀ (l : List Route) (st : RedisState) (e : String × Route),
      e ∈ (l.foldl (sweepStep now) st).entries → e ∈ st.entries := by
  intro l
  induction l with
  | nil => intro st e h; exact h
  | cons a l ih =>
    intro st e h
    exact sweepStep_mem (ih (sweepStep now st a) e h)

/-- Helper for the sweep: the whole sweep loop never touches the fault
set. -/
theorem sweepFold_failDel {now : Int} :
    ∀ (l : List Route) (st : RedisState),
      (l.foldl (sweepStep now) st).failDel = st.failDel := by
  intro l
  induction l with
  | nil => intro st; rfl
  | cons a l ih =>
    intro st
    exact (ih (sweepStep now st a)).trans (sweepStep_failDel now st a)

/-- Helper for the sweep: once the loop has processed an expired route whose
key is deletable, no entry under that key survives to the end. -/
theorem sweepFold_clears {now : Int} (r : Route) :
    ∀ (l : List Route) (st : RedisState), r ∈ l → r.expiresAt < now →
      r.color ∉ st.failDel →
      ∀ e ∈ (l.foldl (sweepStep now) st).entries, e.1 ≠ r.color := by
  intro l
  induction l with
  | nil => intro st hmem; exact absurd hmem (List.not_mem_nil r)
  | cons a l ih =>
    intro st hmem hexp hfd e he
    rcases List.mem_cons.mp hmem with heq | htail
    · subst heq
      have he2 : e ∈ (sweepStep now st r).entries :=
        sweepFold_mem l (sweepStep now st r) e he
      unfold sweepStep at he2
      rw [if_pos hexp] at he2
      unfold backendDelete at he2
      rw [if_neg hfd] at he2
      unfold redisDel at he2
      have hb := List.of_mem_filter he2
      simpa using hb
    · exact ih (sweepStep now st a) htail hexp
        (by rw [sweepStep_failDel]; exact hfd) e he

/-- C1: heartbeat with an address or token that differs from the stored
values fails with the mismatch error and leaves the store state (hence the
stored route's expiry) unchanged; heartbeat for a tag with no stored route
fails with the not-found error instead, and the two errors are distinct. -/
theorem C1_heartbeat_errors (s : RedisState) (now : Int)
    (tag addr tok : String) (ttl : Int) :
    (redisGet s tag = none →
      backendHeartbeat s now tag addr tok ttl = (Except.error BErr.notFound, s)) ∧
    (∀ r, redisGet s tag = some r → r.address ≠ addr ∨ r.token ≠ tok →
      backendHeartbeat s now tag addr tok ttl = (Except.error BErr.mismatch, s)) ∧
    BErr.notFound ≠ BErr.mismatch := by
  refine ⟨?_, ?_, by decide⟩
  · intro h
    unfold backendHeartbeat backendGet
    rw [h]
  · intro r hr hmm
    have hg : backendGet s tag = Except.ok r := by
      unfold backendGet
      rw [hr]
    unfold backendHeartbeat
    rw [hg]
    simp only [if_pos hmm]

/-- Witness for C1: a mismatching heartbeat on a stored route and a
heartbeat on an absent tag, at concrete inputs. -/
theorem C1_witness :
    backendHeartbeat ⟨[], []⟩ 0 "blue" "a" "t" 5 =
      (Except.error BErr.notFound, ⟨[], []⟩) ∧
    backendHeartbeat ⟨[("blue", ⟨"blue", "a", "o", "t", 5⟩)], []⟩ 9
        "blue" "b" "t" 5 =
      (Except.error BErr.mismatch, ⟨[("blue", ⟨"blue", "a", "o", "t", 5⟩)], []⟩) :=
  ⟨(C1_heartbeat_errors ⟨[], []⟩ 0 "blue" "a" "t" 5).1 rfl,
   (C1_heartbeat_errors ⟨[("blue", ⟨"blue", "a", "o", "t", 5⟩)], []⟩ 9
      "blue" "b" "t" 5).2.1 ⟨"blue", "a", "o", "t", 5⟩ rfl
      (Or.inl (by decide))⟩

/-- C2: Get returns the stored route verbatim even when its expiry has
already passed relative to any clock; the store layer never turns an
expired-but-present route into a not-found answer. -/
theorem C2_get_returns_expired_route (s : RedisState) (tag : String)
    (r : Route) (now : Int) (hstored : redisGet s tag = some r)
    (_hexpired : r.expiresAt < now) :
    backendGet s tag = Except.ok r := by
  unfold backendGet
  rw [hstored]

/-- Witness for C2: a route already expired at the evaluating clock is
still returned by Get. -/
theorem C2_witness :
    redisGet ⟨[("blue", ⟨"blue", "a", "o", "t", 5⟩)], []⟩ "blue" =
      some ⟨"blue", "a", "o", "t", 5⟩ ∧
    (5 : Int) < 10 ∧
    backendGet ⟨[("blue", ⟨"blue", "a", "o", "t", 5⟩)], []⟩ "blue" =
      Except.ok ⟨"blue", "a", "o", "t", 5⟩ :=
  ⟨rfl, by decide,
   C2_get_returns_expired_route ⟨[("blue", ⟨"blue", "a", "o", "t", 5⟩)], []⟩
     "blue" ⟨"blue", "a", "o", "t", 5⟩ 10 rfl (by decide)⟩

/-- C3: Register unconditionally stores the route with expiresAt equal to
now plus ttl, overwriting whatever was stored for the tag (no hypothesis on
the prior state and no token check), and an immediately following Get
returns the same address, owner and token with that expiry. -/
theorem C3_register_then_get (s : RedisState) (now : Int) (r : Route)
    (ttl : Int) :
    backendGet (backendRegister s now r ttl).2 r.color =
      Except.ok { r with expiresAt := now + ttl } := by
  unfold backendRegister redisSet backendGet redisGet
  rw [List.find?_cons_of_pos _ (by simp)]
  rfl

/-- C10: Register mutates the caller-supplied route argument, overwriting
its expiresAt field with now plus ttl regardless of the value passed in,
and stores exactly that mutated route. -/
theorem C10_register_mutates_argument (s : RedisState) (now : Int)
    (r : Route) (ttl : Int) :
    (backendRegister s now r ttl).1 = { r with expiresAt := now + ttl } ∧
    redisGet (backendRegister s now r ttl).2 r.color =
      some (backendRegister s now r ttl).1 := by
  constructor
  · rfl
  · unfold backendRegister redisSet redisGet
    rw [List.find?_cons_of_pos _ (by simp)]
    rfl

/-- C7: the sweep lists all routes and deletes every route whose expiry has
passed relative to the current clock, so the route's key answers not-found
and the route is absent from a subsequent list; the sweep reports success
even when individual deletions fail, and a failing deletion of one route
does not prevent the deletion of the other expired routes (the statement
holds for every expired deletable route whatever the fault set holds). -/
theorem C7_sweep_removes_expired (s : RedisState) (now : Int) (r : Route)
    (hwf : WFState s) (hr : r ∈ backendList s) (hexp : r.expiresAt < now)
    (hfd : r.color ∉ s.failDel) :
    (backendDeleteExpired s now).1 = Except.ok () ∧
    redisGet (backendDeleteExpired s now).2 r.color = none ∧
    ∀ r2 ∈ backendList (backendDeleteExpired s now).2, r2.color ≠ r.color := by
  refine ⟨rfl, ?_, ?_⟩
  · have hnone : ((backendList s).foldl (sweepStep now) s).entries.find?
        (fun e => e.1 == r.color) = none := by
      rw [List.find?_eq_none]
      intro x hx
      have hne := sweepFold_clears r (backendList s) s hr hexp hfd x hx
      simpa using hne
    unfold backendDeleteExpired redisGet
    rw [hnone]
    rfl
  · intro r2 hr2
    unfold backendDeleteExpired backendList at hr2
    rcases List.mem_map.mp hr2 with ⟨e, he, heq⟩
    have h1 : e.1 ≠ r.color := sweepFold_clears r (backendList s) s hr hexp hfd e he
    have h2 : e ∈ s.entries := sweepFold_mem (backendList s) s e he
    have h3 : e.1 = e.2.color := hwf e h2
    rw [heq] at h3
    intro hcontra
    exact h1 (h3.trans hcontra)

/-- Witness for C7: a state with two expired routes, one of whose deletions
fails; the other is still removed and the sweep still reports success. -/
theorem C7_witness :
    WFState ⟨[("blue", ⟨"blue", "a", "o", "t", 5⟩),
              ("red", ⟨"red", "b", "o", "t", 3⟩)], ["red"]⟩ ∧
    (⟨"blue", "a", "o", "t", 5⟩ : Route) ∈
      backendList ⟨[("blue", ⟨"blue", "a", "o", "t", 5⟩),
                    ("red", ⟨"red", "b", "o", "t", 3⟩)], ["red"]⟩ ∧
    (5 : Int) < 10 ∧
    "blue" ∉ ["red"] ∧
    redisGet (backendDeleteExpired
        ⟨[("blue", ⟨"blue", "a", "o", "t", 5⟩),
          ("red", ⟨"red", "b", "o", "t", 3⟩)], ["red"]⟩ 10).2 "blue" = none :=
  ⟨by unfold WFState; decide, by decide, by decide, by decide,
   (C7_sweep_removes_expired
      ⟨[("blue", ⟨"blue", "a", "o", "t", 5⟩),
        ("red", ⟨"red", "b", "o", "t", 3⟩)], ["red"]⟩ 10
      ⟨"blue", "a", "o", "t", 5⟩ (by unfold WFState; decide) (by decide)
      (by decide) (by decide)).2.1⟩

/-- C4: per inbound request, an absent color header means the request
proceeds to the normal handler chain unmodified; a present header whose
strategy lookup errs also means the unmodified request proceeds, never an
error response; a resolved target means the transport forwards the request
(answering 502 when the transport errs) and the normal handler chain is not
invoked. -/
theorem C4_dispatch_control_flow (strat : String → Except BErr String)
    (proxyFails : String → Bool) (req : HTTPRequest) :
    (getHeader req "color" = "" →
      ginProxyMiddleware strat proxyFails req = DispatchOutcome.next req) ∧
    (∀ e, getHeader req "color" ≠ "" →
      strat (getHeader req "color") = Except.error e →
      ginProxyMiddleware strat proxyFails req = DispatchOutcome.next req) ∧
    (∀ t, getHeader req "color" ≠ "" →
      strat (getHeader req "color") = Except.ok t →
      ginProxyMiddleware strat proxyFails req =
        (if proxyFails t then DispatchOutcome.badGateway t
         else DispatchOutcome.forwarded t) ∧
      ∀ r2, ginProxyMiddleware strat proxyFails req ≠ DispatchOutcome.next r2) := by
  refine ⟨?_, ?_, ?_⟩
  · intro h
    unfold ginProxyMiddleware
    rw [if_pos h]
  · intro e hne he
    unfold ginProxyMiddleware
    rw [if_neg hne, he]
  · intro t hne ht
    have hmain : ginProxyMiddleware strat proxyFails req =
        (if proxyFails t then DispatchOutcome.badGateway t
         else DispatchOutcome.forwarded t) := by
      unfold ginProxyMiddleware
      rw [if_neg hne, ht]
    refine ⟨hmain, ?_⟩
    intro r2 hc
    rw [hmain] at hc
    by_cases hp : proxyFails t
    · rw [if_pos hp] at hc
      exact DispatchOutcome.noConfusion hc
    · rw [if_neg hp] at hc
      exact DispatchOutcome.noConfusion hc

/-- Witness for C4: a request without the header passes through, a request
whose tag resolves to no target passes through, and a request with a
resolved target is forwarded, at concrete inputs. -/
theorem C4_witness :
    ginProxyMiddleware (fun _ => Except.ok "http://h:1") (fun _ => false)
      ⟨"/users", "", "", "", [], ""⟩ =
      DispatchOutcome.next ⟨"/users", "", "", "", [], ""⟩ ∧
    ginProxyMiddleware (fun _ => Except.error BErr.notFound) (fun _ => false)
      ⟨"/users", "", "", "", [("color", "blue")], ""⟩ =
      DispatchOutcome.next ⟨"/users", "", "", "", [("color", "blue")], ""⟩ ∧
    ginProxyMiddleware (fun _ => Except.ok "http://h:1") (fun _ => false)
      ⟨"/users", "", "", "", [("color", "blue")], ""⟩ =
      DispatchOutcome.forwarded "http://h:1" :=
  ⟨(C4_dispatch_control_flow (fun _ => Except.ok "http://h:1") (fun _ => false)
      ⟨"/users", "", "", "", [], ""⟩).1 (by decide),
   (C4_dispatch_control_flow (fun _ => Except.error BErr.notFound)
      (fun _ => false)
      ⟨"/users", "", "", "", [("color", "blue")], ""⟩).2.1 BErr.notFound
      (by decide) rfl,
   ((C4_dispatch_control_flow (fun _ => Except.ok "http://h:1")
      (fun _ => false)
      ⟨"/users", "", "", "", [("color", "blue")], ""⟩).2.2 "http://h:1"
      (by decide) rfl).1⟩

/-- C9: the dispatch middleware passes the request through to the normal
handler chain on every error from the strategy's Select, and the default
SimpleStrategy propagates every backend error verbatim, so a store error on
the dispatch path (not only not-found) ends in passthrough rather than a
client-visible error response. -/
theorem C9_select_error_passthrough (getRes : Except BErr Route)
    (proxyFails : String → Bool) (req : HTTPRequest) (e : BErr)
    (hne : getHeader req "color" ≠ "") (hres : getRes = Except.error e) :
    simpleSelect getRes = Except.error e ∧
    ginProxyMiddleware (fun _ => simpleSelect getRes) proxyFails req =
      DispatchOutcome.next req := by
  subst hres
  refine ⟨rfl, ?_⟩
  unfold ginProxyMiddleware
  rw [if_neg hne]
  rfl

/-- Witness for C9: a backend store error (not a not-found) on the dispatch
path of a tagged request ends in passthrough. -/
theorem C9_witness :
    simpleSelect (Except.error BErr.storeErr) = Except.error BErr.storeErr ∧
    ginProxyMiddleware (fun _ => simpleSelect (Except.error BErr.storeErr))
      (fun _ => false) ⟨"/users", "", "", "", [("color", "blue")], ""⟩ =
      DispatchOutcome.next ⟨"/users", "", "", "", [("color", "blue")], ""⟩ :=
  C9_select_error_passthrough (Except.error BErr.storeErr) (fun _ => false)
    ⟨"/users", "", "", "", [("color", "blue")], ""⟩ BErr.storeErr
    (by decide) rfl

/-- C5: for every forwarded request, the upstream request path is the
target's base path joined with the inbound request path with a duplicate
slash at the join point collapsed exactly once, the outbound Host is the
target's host, the headers and body pass through unchanged, the transport's
Proxy emits exactly the director's rewrite, and on the spec's example a
base path of /api with inbound path /users yields /api/users. -/
theorem C5_upstream_path_and_host (target : URLModel) (req : HTTPRequest)
    (st : HTTPTransportState) :
    (httpDirector target req).path = specJoinOnce target.path req.path ∧
    (httpDirector target req).hostHeader = target.host ∧
    (httpDirector target req).headers = req.headers ∧
    (httpDirector target req).body = req.body ∧
    (httpTransportProxy st target req).1 = Except.ok (httpDirector target req) ∧
    (httpDirector ⟨"http", "h:1", "/api"⟩ ⟨"/users", "", "", "", [], ""⟩).path =
      "/api/users" := by
  refine ⟨rfl, rfl, rfl, rfl, rfl, ?_⟩
  decide

/-- Counterexample to C6 as stated: with the shutdown deadline exhausted
before the background tasks finish, Shutdown returns the timeout error
without closing either the Forwarder or the Registry, so the closes do not
happen in the deadline-exhausted case the claim includes. -/
theorem C6_counterexample :
    proxyShutdown ⟨false, "", false, true, true, false, false⟩ =
      ([ShutdownStep.cancelTasks], ShutdownResult.timedOut) ∧
    ShutdownStep.closeTransport ∉
      (proxyShutdown ⟨false, "", false, true, true, false, false⟩).1 ∧
    ShutdownStep.closeBackend ∉
      (proxyShutdown ⟨false, "", false, true, true, false, false⟩).1 := by
  decide

/-- C6 amended: when the background tasks finish within the deadline,
Shutdown closes the Forwarder and then the Registry in that order, a
Forwarder-close failure is logged without affecting the steps or the
result, and a Registry-close failure is the returned shutdown result; when
the deadline is exhausted first, Shutdown returns the timeout error without
closing either resource. -/
theorem C6_shutdown_close_order (e : ShutdownEnv)
    (hc : e.transportHasCloser = true) :
    (e.waitTimesOut = false →
      (proxyShutdown e).1 =
        [ShutdownStep.cancelTasks] ++
          (if e.autoRegister ∧ e.localColor ≠ "" then [ShutdownStep.deleteSelf]
           else []) ++
          [ShutdownStep.closeTransport, ShutdownStep.closeBackend] ∧
      (proxyShutdown e).2 =
        (if e.backendCloseFails then ShutdownResult.backendCloseFailed
         else ShutdownResult.ok)) ∧
    (e.waitTimesOut = true →
      (proxyShutdown e).2 = ShutdownResult.timedOut ∧
      ShutdownStep.closeTransport ∉ (proxyShutdown e).1 ∧
      ShutdownStep.closeBackend ∉ (proxyShutdown e).1) := by
  constructor
  · intro hw
    unfold proxyShutdown
    rw [hw, hc]
    simp [List.append_assoc]
  · intro hw
    unfold proxyShutdown
    rw [hw]
    by_cases har : e.autoRegister ∧ e.localColor ≠ "" <;> simp [har]

/-- Witness for C6: a run whose transport close fails and whose backend
close fails still closes in order and surfaces the backend error, and a
timed-out run returns the timeout without closing, at concrete inputs. -/
theorem C6_witness :
    (proxyShutdown ⟨true, "blue", false, false, true, true, true⟩).1 =
      [ShutdownStep.cancelTasks, ShutdownStep.deleteSelf,
       ShutdownStep.closeTransport, ShutdownStep.closeBackend] ∧
    (proxyShutdown ⟨true, "blue", false, false, true, true, true⟩).2 =
      ShutdownResult.backendCloseFailed ∧
    (proxyShutdown ⟨true, "blue", false, true, true, false, false⟩).2 =
      ShutdownResult.timedOut := by
  have h1 := (C6_shutdown_close_order
    ⟨true, "blue", false, false, true, true, true⟩ rfl).1 rfl
  have h2 := (C6_shutdown_close_order
    ⟨true, "blue", false, true, true, false, false⟩ rfl).2 rfl
  refine ⟨?_, ?_, h2.1⟩
  · rw [h1.1]
    decide
  · rw [h1.2]
    decide

/-- Counterexample to C8 as stated: a relay call made after close succeeds
instead of returning an error, for the gRPC transport (the pool was emptied
by Close, so the call silently dials and pools a fresh connection) as well
as for the HTTP transport (Proxy never consults any closed state). -/
theorem C8_counterexample :
    (grpcProxy (grpcClose ⟨[("h:1", 0)], false, []⟩).2 5 "h:1" true true).1 =
      Except.ok () ∧
    (grpcClose ⟨[("h:1", 0)], false, []⟩).2.sweepStopped = true ∧
    (httpTransportProxy (httpTransportClose ⟨false⟩).2 ⟨"http", "h:1", "/api"⟩
        ⟨"/users", "", "", "", [], ""⟩).1 =
      Except.ok (httpDirector ⟨"http", "h:1", "/api"⟩
        ⟨"/users", "", "", "", [], ""⟩) := by
  refine ⟨?_, rfl, rfl⟩
  rfl

/-- C8 amended: for both transports, close stops the gRPC idle-eviction
sweep, closes and evicts every pooled connection (the HTTP transport drops
its idle connections); but close does not poison the transport: a later
relay call re-dials and can succeed rather than returning an error. -/
theorem C8_close_then_relay (st : GRPCState) (now : Int) (target : String)
    (hs : HTTPTransportState) (tgt : URLModel) (req : HTTPRequest)
    (hne : target ≠ "") :
    (grpcClose st).2.sweepStopped = true ∧
    (grpcClose st).2.pool = [] ∧
    (∀ p ∈ st.pool, p.1 ∈ (grpcClose st).2.closedTargets) ∧
    (grpcProxy (grpcClose st).2 now target true true).1 = Except.ok () ∧
    (httpTransportClose hs).2.idleConnsClosed = true ∧
    (httpTransportProxy (httpTransportClose hs).2 tgt req).1 =
      Except.ok (httpDirector tgt req) := by
  refine ⟨rfl, rfl, ?_, ?_, rfl, rfl⟩
  · intro p hp
    unfold grpcClose
    exact List.mem_append.mpr (Or.inr (List.mem_map.mpr ⟨p, hp, rfl⟩))
  · unfold grpcProxy getOrCreateConn
    rw [if_neg hne]
    rfl

/-- Witness for C8 amended: closing a transport holding one pooled
connection stops the sweep, evicts and closes the connection, and a relay
to a fresh target afterwards succeeds, at concrete inputs. -/
theorem C8_witness :
    ("old", (0 : Int)).1 ∈ (grpcClose ⟨[("old", 0)], false, []⟩).2.closedTargets ∧
    (grpcProxy (grpcClose ⟨[("old", 0)], false, []⟩).2 7 "h:2" true true).1 =
      Except.ok () :=
  ⟨(C8_close_then_relay ⟨[("old", 0)], false, []⟩ 7 "h:2" ⟨false⟩
      ⟨"http", "h", ""⟩ ⟨"", "", "", "", [], ""⟩ (by decide)).2.2.1
      ("old", 0) (by decide),
   (C8_close_then_relay ⟨[("old", 0)], false, []⟩ 7 "h:2" ⟨false⟩
      ⟨"http", "h", ""⟩ ⟨"", "", "", "", [], ""⟩ (by decide)).2.2.2.1⟩
